import Mathlib

/-!
Shallow embedding of `src/main_controller.py` (and the command framing of
`src/uart.py`) from the pi-computing repository, together with proofs that
settle the frozen claims about its specification.

Modelling conventions:
* Python floats are modelled as exact rationals (`ℚ`); the numeric facts
  settled here (truncation vs. rounding, table lookups, sign tests) are
  insensitive to double-precision rounding at the inputs involved.
* Odometry (`calculate_x_y_coords`) uses real trigonometry, so it is
  modelled over `ℝ`.
* Serial lines are the already-decoded, already-stripped ASCII text that
  `readline().decode('ascii', errors='ignore').strip()` produces; a line is
  a `List Char`.
* `pandas.DataFrame` rows become Lean structures; a dataframe becomes a
  `List` of rows, `None` returns become `Option.none`.
-/

namespace MainController

/-- Steering tag set `rs.Steering` from the `reeds_shepp` planner module. -/
inductive Steering where
  | straight
  | left
  | right
deriving DecidableEq, Repr

/-- Gear tag set `rs.Gear` from the `reeds_shepp` planner module.  `neutral` stands for
any value other than `FORWARD`/`BACKWARD`, matching the fall-through
branches of the source (`gear_char`, `get_velocity`). -/
inductive Gear where
  | forward
  | backward
  | neutral
deriving DecidableEq, Repr

/-- A path object produced by `rs.get_optimal_path`: attributes
`p.steering`, `p.gear`, `p.param` (the signed distance), as consumed by
`create_path_dataframe`. -/
structure PathElement where
  steering : Steering
  gear : Gear
  param : ℚ
deriving DecidableEq, Repr

-- Module-level constants of main_controller.py, as exact rationals.
def FORWARD_STRAIGHT_SHORT_VELOCITY : ℚ := 6
def FORWARD_STRAIGHT_LONG_VELOCITY : ℚ := 8/10
def FORWARD_LEFT_SHORT_VELOCITY : ℚ := 11/10
def FORWARD_LEFT_LONG_VELOCITY : ℚ := 45/100
def FORWARD_RIGHT_SHORT_VELOCITY : ℚ := 11/10
def FORWARD_RIGHT_LONG_VELOCITY : ℚ := 45/100
def BACKWARD_STRAIGHT_SHORT_VELOCITY : ℚ := 1
def BACKWARD_STRAIGHT_LONG_VELOCITY : ℚ := 65/100
def BACKWARD_LEFT_SHORT_VELOCITY : ℚ := 7/10
def BACKWARD_LEFT_LONG_VELOCITY : ℚ := 45/100
def BACKWARD_RIGHT_SHORT_VELOCITY : ℚ := 7/10
def BACKWARD_RIGHT_LONG_VELOCITY : ℚ := 45/100
def TURNING_RADIUS : ℚ := 6/10

/-- The zero-distance tolerance `1e-10` used in `create_path_dataframe`. -/
def zeroTol : ℚ := 1 / 10 ^ 10

/-- The lookup `get_velocity(gear, steering, distance)`, the nested if/elif chain in
`create_path_dataframe` (lines 143-159): `is_short = distance < 0.4`,
then a lookup per (gear, steering), with `return 0` as fall-through for
neutral/unknown gear. -/
def get_velocity (gear : Gear) (steering : Steering) (distance : ℚ) : ℚ :=
  let is_short : Prop := distance < 4/10
  match gear with
  | Gear.forward =>
      match steering with
      | Steering.straight =>
          if is_short then FORWARD_STRAIGHT_SHORT_VELOCITY else FORWARD_STRAIGHT_LONG_VELOCITY
      | Steering.left =>
          if is_short then FORWARD_LEFT_SHORT_VELOCITY else FORWARD_LEFT_LONG_VELOCITY
      | Steering.right =>
          if is_short then FORWARD_RIGHT_SHORT_VELOCITY else FORWARD_RIGHT_LONG_VELOCITY
  | Gear.backward =>
      match steering with
      | Steering.straight =>
          if is_short then BACKWARD_STRAIGHT_SHORT_VELOCITY else BACKWARD_STRAIGHT_LONG_VELOCITY
      | Steering.left =>
          if is_short then BACKWARD_LEFT_SHORT_VELOCITY else BACKWARD_LEFT_LONG_VELOCITY
      | Steering.right =>
          if is_short then BACKWARD_RIGHT_SHORT_VELOCITY else BACKWARD_RIGHT_LONG_VELOCITY
  | Gear.neutral => 0

/-- One row of the dataframe built by `create_path_dataframe` after all
columns (`steering`, `gear`, `distance`, `velocity`, `duration_ms`) have
been added.  `duration_s` is inlined into `duration_ms`. -/
structure Row where
  steering : Steering
  gear : Gear
  distance : ℚ
  velocity : ℚ
  duration_ms : ℚ
deriving DecidableEq, Repr

/-- The row of the initial dataframe (columns `steering`, `gear`,
`distance` only). -/
structure PrimRow where
  steering : Steering
  gear : Gear
  distance : ℚ
deriving DecidableEq, Repr

/-- The dict comprehension of line 124:
`{'steering': p.steering, 'gear': p.gear,
  'distance': 0.0 if abs(p.param) < 1e-10 else p.param}`. -/
def clampRow (p : PathElement) : PrimRow :=
  { steering := p.steering, gear := p.gear,
    distance := if |p.param| < zeroTol then 0 else p.param }

/-- Adding the `velocity`, `duration_s` and `duration_ms` columns
(lines 161-182) to one row:
`velocity = get_velocity(gear, steering, distance)`,
`duration_s = distance * TURNING_RADIUS / velocity if velocity != 0 else 0`,
`duration_ms = duration_s * 1000`. -/
def addVelDur (r : PrimRow) : Row :=
  let v := get_velocity r.gear r.steering r.distance
  { steering := r.steering, gear := r.gear, distance := r.distance,
    velocity := v,
    duration_ms := (if v ≠ 0 then r.distance * TURNING_RADIUS / v else 0) * 1000 }

/-- The translator `create_path_dataframe(full_path)` (lines 102-193): `None` when the
input is empty, build the initial dataframe, drop rows with
`distance == 0`, `None` when the result is empty, then add the velocity
and duration columns. -/
def create_path_dataframe (full_path : List PathElement) : Option (List Row) :=
  if full_path.isEmpty then none
  else
    let df0 := full_path.map clampRow
    let df1 := df0.filter (fun r => decide (r.distance ≠ 0))
    if df1.isEmpty then none
    else some (df1.map addVelDur)

-- ---------------------------------------------------------------------
-- Spec-side definitions (translated from the spec's words, for the
-- refinement theorems that compare them with the source functions).
-- ---------------------------------------------------------------------

/-- Modelled from the spec: the configured "short" velocity of the
VelocityPolicy for a (gear, steering) pair (`0` for Neutral or unmapped
combinations). -/
def shortVel : Gear → Steering → ℚ
  | Gear.forward, Steering.straight => FORWARD_STRAIGHT_SHORT_VELOCITY
  | Gear.forward, Steering.left => FORWARD_LEFT_SHORT_VELOCITY
  | Gear.forward, Steering.right => FORWARD_RIGHT_SHORT_VELOCITY
  | Gear.backward, Steering.straight => BACKWARD_STRAIGHT_SHORT_VELOCITY
  | Gear.backward, Steering.left => BACKWARD_LEFT_SHORT_VELOCITY
  | Gear.backward, Steering.right => BACKWARD_RIGHT_SHORT_VELOCITY
  | Gear.neutral, _ => 0

/-- Modelled from the spec: the configured "long" velocity of the
VelocityPolicy for a (gear, steering) pair (`0` for Neutral or unmapped
combinations). -/
def longVel : Gear → Steering → ℚ
  | Gear.forward, Steering.straight => FORWARD_STRAIGHT_LONG_VELOCITY
  | Gear.forward, Steering.left => FORWARD_LEFT_LONG_VELOCITY
  | Gear.forward, Steering.right => FORWARD_RIGHT_LONG_VELOCITY
  | Gear.backward, Steering.straight => BACKWARD_STRAIGHT_LONG_VELOCITY
  | Gear.backward, Steering.left => BACKWARD_LEFT_LONG_VELOCITY
  | Gear.backward, Steering.right => BACKWARD_RIGHT_LONG_VELOCITY
  | Gear.neutral, _ => 0

/-- The short/long distance threshold of the VelocityPolicy (`0.4`,
inlined as `is_short = distance < 0.4` in the source). -/
def shortLongThreshold : ℚ := 4/10

/-- Modelled from the spec: nearest-integer rounding, as in the claimed
invariant `durationMs = round(...)`.  (At the inputs settled here the
value is never a half-integer tie, so the tie-breaking convention is
irrelevant.) -/
def roundNearest (q : ℚ) : ℤ := ⌊q + 1/2⌋

/-- Spec-side view of the translator's per-primitive output: the row the
pipeline produces for a primitive that survives the zero-distance filter. -/
def rowOf (p : PathElement) : Row :=
  addVelDur { steering := p.steering, gear := p.gear, distance := p.param }

/-- The command list actually produced for a plan: the rows of
`create_path_dataframe`, or `[]` when it returns `None` (in which case
`main` exits and nothing is transmitted). -/
def commandsOf (full_path : List PathElement) : List Row :=
  (create_path_dataframe full_path).getD []

-- ---------------------------------------------------------------------
-- Serial protocol: telemetry decoding and the segment sequencer of
-- communicate_with_robot (lines 196-289).
-- ---------------------------------------------------------------------

/-- A received serial line after `decode('ascii', errors='ignore').strip()`. -/
abbrev Line := List Char

/-- Python string split `line.split(',')` on a one-character separator
(`''.split(',') == ['']`, `','.split(',') == ['', '']`). -/
def splitOnComma : Line → List Line
  | [] => [[]]
  | c :: rest =>
      if c = ',' then [] :: splitOnComma rest
      else
        match splitOnComma rest with
        | [] => [[c]]
        | f :: fs => (c :: f) :: fs

/-- Leading/trailing whitespace stripping, as Python numeric parsing does
to its argument (ASCII whitespace; the model ignores exotic Unicode
whitespace, which cannot occur on this ASCII-decoded link). -/
def stripWS (cs : Line) : Line :=
  ((cs.dropWhile Char.isWhitespace).reverse.dropWhile Char.isWhitespace).reverse

/-- The numeric value of a nonempty all-digit character list. -/
def natOfDigits (cs : List Char) : ℕ :=
  cs.foldl (fun n c => 10 * n + (c.toNat - 48)) 0

/-- A nonempty all-digit character list, or `none`. -/
def digitsToNat : List Char → Option ℕ
  | [] => none
  | cs => if cs.all Char.isDigit then some (natOfDigits cs) else none

/-- An optional leading sign (`+`/`-`), returned as `1`/`-1` with the rest. -/
def parseSign : List Char → ℤ × List Char
  | '+' :: rest => (1, rest)
  | '-' :: rest => (-1, rest)
  | cs => (1, cs)

/-- Python `int(s)` on a string: surrounding whitespace, an optional
sign, then one or more digits; anything else raises `ValueError`, modelled
as `none`.  (Underscore digit separators are not modelled; the controller
never emits them.) -/
def pyParseInt (s : Line) : Option ℤ :=
  let t := stripWS s
  let sg := parseSign t
  (digitsToNat sg.2).map (fun n => sg.1 * (n : ℤ))

/-- Splits a character list at the first character satisfying `p`:
the part before it, and (when found) the part after it. -/
def splitAtChar (p : Char → Bool) : List Char → List Char × Option (List Char)
  | [] => ([], none)
  | c :: rest =>
      if p c then ([], some rest)
      else
        let r := splitAtChar p rest
        (c :: r.1, r.2)

/-- The mantissa of a Python float literal: `digits`, `digits.`,
`digits.digits` or `.digits` (at least one digit overall, a single dot). -/
def parseMantissa (cs : List Char) : Option ℚ :=
  let r := splitAtChar (fun c => c = '.') cs
  match r.2 with
  | none => (digitsToNat r.1).map (fun n => (n : ℚ))
  | some fp =>
      if r.1.all Char.isDigit ∧ fp.all Char.isDigit ∧ (r.1 ≠ [] ∨ fp ≠ []) then
        some ((natOfDigits r.1 : ℚ) + (natOfDigits fp : ℚ) / 10 ^ fp.length)
      else none

/-- Python `float(s)` on a string, modelled over `ℚ`: surrounding
whitespace, optional sign, mantissa, optional `e`/`E` exponent with
optional sign.  (`inf`/`nan` literals have no rational value and are not
modelled; the controller emits only finite decimal telemetry.) -/
def pyParseFloat (s : Line) : Option ℚ :=
  let t := stripWS s
  let sg := parseSign t
  let me := splitAtChar (fun c => c = 'e' ∨ c = 'E') sg.2
  match parseMantissa me.1, me.2 with
  | some m, none => some ((sg.1 : ℚ) * m)
  | some m, some ec =>
      let esg := parseSign ec
      (digitsToNat esg.2).map (fun e => (sg.1 : ℚ) * m * (10 : ℚ) ^ (esg.1 * (e : ℤ)))
  | none, _ => none

/-- One decoded telemetry line (the `parsed_data` dict of lines 259-266). -/
structure Sample where
  timestamp_ms : ℤ
  desired_velocity : ℚ
  actual_velocity : ℚ
  error : ℚ
  output : ℚ
  gyro_z : ℚ
deriving DecidableEq, Repr

/-- The six positional field parses of lines 260-265
(`int(parts[0])`, then `float(parts[1..5])`); any failure is the
`ValueError` path, modelled as `none`. -/
def parseFields (parts : List Line) : Option Sample := do
  let t ← pyParseInt (parts.getD 0 [])
  let dv ← pyParseFloat (parts.getD 1 [])
  let av ← pyParseFloat (parts.getD 2 [])
  let er ← pyParseFloat (parts.getD 3 [])
  let op ← pyParseFloat (parts.getD 4 [])
  let gz ← pyParseFloat (parts.getD 5 [])
  pure { timestamp_ms := t, desired_velocity := dv, actual_velocity := av,
         error := er, output := op, gyro_z := gz }

/-- Telemetry-candidate decoding of a non-completion line (lines 256-271):
split on commas, require at least 6 fields, parse them positionally;
`none` both for too few fields (silently skipped) and for a parse failure
(caught `ValueError`). -/
def parseSampleLine (line : Line) : Option Sample :=
  let parts := splitOnComma line
  if 6 ≤ parts.length then parseFields parts else none

/-- One iteration of the read branch of the wait loop (lines 248-271) on a
freshly read line: the literal line `"1"` signals segment completion and
touches nothing else; any other line is decoded and, on success, appended
to the plan-wide telemetry log; on failure the log is unchanged.  Returns
(segment completed, updated log). -/
def handleLine (log : List Sample) (line : Line) : Bool × List Sample :=
  if line = ['1'] then (true, log)
  else
    match parseSampleLine line with
    | some s => (false, log ++ [s])
    | none => (false, log)

/-- The wait loop of one segment (lines 245-272) over the lines read
before the deadline: process lines in receipt order until the completion
signal (`true`) or until the stream is exhausted without it, which is the
timeout outcome (`false`). -/
def awaitCompletion : List Sample → List Line → Bool × List Sample
  | log, [] => (false, log)
  | log, l :: rest =>
      let r := handleLine log l
      if r.1 then (true, r.2) else awaitCompletion r.2 rest

/-- An outbound UART command as framed by `uart.send_command`
(steering/gear/lifting characters and the integer duration). -/
structure Cmd where
  steering : Char
  gear : Char
  duration : ℤ
  lifting : Char
deriving DecidableEq, Repr

/-- The steering mapping of lines 220-225: `LEFT` is sent as `'R'`,
`RIGHT` as `'L'`, anything else as `'S'`. -/
def steeringChar : Steering → Char
  | Steering.left => 'R'
  | Steering.right => 'L'
  | _ => 'S'

/-- The gear mapping of line 227. -/
def gearChar : Gear → Char
  | Gear.forward => 'F'
  | Gear.backward => 'B'
  | _ => 'N'

/-- Python `int()` applied to a float value: truncation toward zero. -/
def pyTrunc (q : ℚ) : ℤ :=
  if 0 ≤ q then ⌊q⌋ else ⌈q⌉

/-- The command transmitted for one dataframe row (lines 219-242):
swapped steering character, gear character,
`duration = int(row['duration_ms'])`, `lifting = 'N'`. -/
def rowCmd (r : Row) : Cmd :=
  { steering := steeringChar r.steering, gear := gearChar r.gear,
    duration := pyTrunc r.duration_ms, lifting := 'N' }

/-- The explicit stop command of line 281:
`send_command(steering='N', gear='N', duration=0, lifting='N')`. -/
def stopCmd : Cmd :=
  { steering := 'N', gear := 'N', duration := 0, lifting := 'N' }

/-- The environment one segment's execution observes: whether the
dispatch write succeeds (`sendOk = false` models `send_command` raising,
e.g. a serial write error), and the lines read back before the 60 s
deadline.  A stream without the completion signal is a timeout. -/
structure SegmentEnv where
  sendOk : Bool
  lines : List Line
deriving DecidableEq, Repr

/-- A segment that gets no environment entry: the write succeeds and
nothing is received (timeout). -/
def defaultSegEnv : SegmentEnv := { sendOk := true, lines := [] }

/-- The environment of a whole plan execution: one entry per segment
(positionally), plus whether the final stop write succeeds. -/
structure PlanEnv where
  segs : List SegmentEnv
  stopOk : Bool
deriving DecidableEq, Repr

/-- Outcome classification of one `communicate_with_robot` call:
the for-loop ran to completion (`completed`), it was broken by a segment
timeout (`timedOut`), or an exception was caught by the handler of
line 283 (`raised`). -/
inductive RunStatus where
  | completed
  | timedOut
  | raised
deriving DecidableEq, Repr

/-- The observable result of a plan execution: every command written to
the serial channel in order, the collected telemetry log, the number of
segments that reached completion, and the outcome. -/
structure RunResult where
  writes : List Cmd
  log : List Sample
  segmentsRun : ℕ
  status : RunStatus
deriving DecidableEq, Repr

/-- The `for index, row in path_df.iterrows()` loop plus the epilogue of
lines 280-281, one segment at a time.  `n` is the current segment index
(also the count of segments completed so far).  A failed dispatch write
raises: the except handler of line 283 swallows it and the function
returns with NO stop command.  A timeout breaks the loop and then the
stop command is written (line 281), as it is after normal completion of
the loop; if that stop write itself raises, it too is swallowed. -/
def runFrom (env : PlanEnv) : List Row → ℕ → List Cmd → List Sample → RunResult
  | [], n, writes, log =>
      if env.stopOk then
        { writes := writes ++ [stopCmd], log := log, segmentsRun := n,
          status := RunStatus.completed }
      else
        { writes := writes, log := log, segmentsRun := n,
          status := RunStatus.raised }
  | r :: rest, n, writes, log =>
      let se := env.segs.getD n defaultSegEnv
      if se.sendOk then
        let p := awaitCompletion log se.lines
        if p.1 then runFrom env rest (n + 1) (writes ++ [rowCmd r]) p.2
        else if env.stopOk then
          { writes := writes ++ [rowCmd r] ++ [stopCmd], log := p.2,
            segmentsRun := n, status := RunStatus.timedOut }
        else
          { writes := writes ++ [rowCmd r], log := p.2, segmentsRun := n,
            status := RunStatus.raised }
      else
        { writes := writes, log := log, segmentsRun := n,
          status := RunStatus.raised }

/-- The sequencer `communicate_with_robot(path_df, ...)` (lines 196-289): an empty
dataframe returns immediately with nothing written; otherwise the
segment loop runs from the first row. -/
def communicate_with_robot (rows : List Row) (env : PlanEnv) : RunResult :=
  if rows.isEmpty then
    { writes := [], log := [], segmentsRun := 0, status := RunStatus.completed }
  else runFrom env rows 0 [] []

-- ---------------------------------------------------------------------
-- Odometry integration: calculate_x_y_coords (lines 291-338), over ℝ.
-- ---------------------------------------------------------------------

/-- Python `math.radians(d)`: degrees to radians. -/
noncomputable def radians (d : ℝ) : ℝ := d * (Real.pi / 180)

/-- Python `a % b` on floats (`a - b * floor(a / b)`, the sign follows
the divisor). -/
noncomputable def pyMod (a b : ℝ) : ℝ := a - b * ⌊a / b⌋

/-- The heading normalization of line 329:
`theta = (theta + pi) % (2 * pi) - pi`. -/
noncomputable def wrapTheta (t : ℝ) : ℝ :=
  pyMod (t + Real.pi) (2 * Real.pi) - Real.pi

/-- One estimated pose: the appended `x_pos`/`y_pos` values together with
the integrator's heading after that sample's update. -/
structure Pose where
  x : ℝ
  y : ℝ
  theta : ℝ

/-- The integrator's running state: position, heading and
`last_timestamp_ms`. -/
structure OdoState where
  x : ℝ
  y : ℝ
  theta : ℝ
  lastTs : ℤ

/-- The loop body of lines 309-334 for one sample:
`dt_s = (ts - last_timestamp_ms) / 1000`, position updated with the
PREVIOUS heading, then the heading updated from the gyro and normalized. -/
noncomputable def odomStep (st : OdoState) (s : Sample) : OdoState :=
  let dt : ℝ := ((s.timestamp_ms : ℝ) - (st.lastTs : ℝ)) / 1000
  { x := st.x + (s.actual_velocity : ℝ) * Real.cos st.theta * dt,
    y := st.y + (s.actual_velocity : ℝ) * Real.sin st.theta * dt,
    theta := wrapTheta (st.theta + radians (s.gyro_z : ℝ) * dt),
    lastTs := s.timestamp_ms }

/-- The whole loop: one pose appended per processed sample, in processing
order. -/
noncomputable def integrate (st : OdoState) : List Sample → List Pose
  | [] => []
  | s :: rest =>
      let st2 := odomStep st s
      { x := st2.x, y := st2.y, theta := st2.theta } :: integrate st2 rest

/-- Insertion of a sample into a timestamp-sorted list (before any
sample with an equal or larger timestamp). -/
def insertByTs (s : Sample) : List Sample → List Sample
  | [] => [s]
  | t :: rest =>
      if s.timestamp_ms ≤ t.timestamp_ms then s :: t :: rest
      else t :: insertByTs s rest

/-- The sort `df.sort_values(by='timestamp_ms')` of line 307, modelled as an
insertion sort on the timestamp key (pandas guarantees only a sorted
rearrangement; ties keep their relative order here). -/
def sortByTs : List Sample → List Sample
  | [] => []
  | s :: rest => insertByTs s (sortByTs rest)

/-- The integrator `calculate_x_y_coords` (lines 291-338): seed the state from the start
point (x, y, angle in degrees — the source reads `ROBOT_START_POINT`,
modelled as an explicit argument) with `last_timestamp_ms = 0`, SORT the
log by timestamp, then integrate every sample in that order. -/
noncomputable def calculate_x_y_coords (start : ℝ × ℝ × ℝ) (log : List Sample) :
    List Pose :=
  integrate { x := start.1, y := start.2.1, theta := radians start.2.2, lastTs := 0 }
    (sortByTs log)

/-- Modelled from the spec (§4.5), one step: using the previous `theta`,
`x += actualVelocity * cos(theta) * dt` and
`y += actualVelocity * sin(theta) * dt` with
`dt = (sample.timestampMs - lastTimestampMs) / 1000`; then
`theta += radians(gyroZ_dps) * dt` normalized via
`theta = ((theta + pi) mod 2pi) - pi`; then `lastTimestampMs` advances. -/
noncomputable def odomSpecStep (st : OdoState) (s : Sample) : OdoState :=
  { x := st.x + (s.actual_velocity : ℝ) * Real.cos st.theta *
          (((s.timestamp_ms : ℝ) - (st.lastTs : ℝ)) / 1000),
    y := st.y + (s.actual_velocity : ℝ) * Real.sin st.theta *
          (((s.timestamp_ms : ℝ) - (st.lastTs : ℝ)) / 1000),
    theta := pyMod (st.theta + radians (s.gyro_z : ℝ) *
          (((s.timestamp_ms : ℝ) - (st.lastTs : ℝ)) / 1000) + Real.pi)
          (2 * Real.pi) - Real.pi,
    lastTs := s.timestamp_ms }

/-- Modelled from the spec (§4.5): one Pose emitted per sample, in
ARRIVAL order (the spec's decoder "does not resequence"). -/
noncomputable def odomSpecRun (st : OdoState) : List Sample → List Pose
  | [] => []
  | s :: rest =>
      let st2 := odomSpecStep st s
      { x := st2.x, y := st2.y, theta := st2.theta } :: odomSpecRun st2 rest

/-- Modelled from the spec (§4.5): the Odometry Integrator on a start
pose (x, y, heading in degrees) and the telemetry log as received. -/
noncomputable def odomSpec (start : ℝ × ℝ × ℝ) (log : List Sample) : List Pose :=
  odomSpecRun { x := start.1, y := start.2.1, theta := radians start.2.2, lastTs := 0 }
    log

-- ---------------------------------------------------------------------
-- Theorems.
-- ---------------------------------------------------------------------

/-- Claim C9: the VelocityPolicy embodied by `get_velocity` is total:
it returns the configured long velocity for `distance ≥ 0.4` and the
configured short velocity for `distance < 0.4` for every mapped
(gear, steering) pair, it is always defined and non-negative, and it
returns `0` for Neutral gear (the unmapped fall-through). -/
theorem C9_velocity_policy_total :
    ∀ (g : Gear) (s : Steering) (d : ℚ),
      get_velocity g s d =
        (if d < shortLongThreshold then shortVel g s else longVel g s) ∧
      0 ≤ get_velocity g s d ∧
      get_velocity Gear.neutral s d = 0 := by
  intro g s d
  refine ⟨?_, ?_, ?_⟩ <;>
    cases g <;> cases s <;>
      by_cases h : d < 4/10 <;>
        simp [get_velocity, shortVel, longVel, shortLongThreshold, h,
          FORWARD_STRAIGHT_SHORT_VELOCITY, FORWARD_STRAIGHT_LONG_VELOCITY,
          FORWARD_LEFT_SHORT_VELOCITY, FORWARD_LEFT_LONG_VELOCITY,
          FORWARD_RIGHT_SHORT_VELOCITY, FORWARD_RIGHT_LONG_VELOCITY,
          BACKWARD_STRAIGHT_SHORT_VELOCITY, BACKWARD_STRAIGHT_LONG_VELOCITY,
          BACKWARD_LEFT_SHORT_VELOCITY, BACKWARD_LEFT_LONG_VELOCITY,
          BACKWARD_RIGHT_SHORT_VELOCITY, BACKWARD_RIGHT_LONG_VELOCITY] <;>
        norm_num

/-- Claim C10: when building the outbound command, a primitive with Left
steering is sent with steering code `'R'` and one with Right steering
with code `'L'` (swapped relative to the primitive names), while Straight
maps to `'S'`. -/
theorem C10_steering_codes_swapped :
    steeringChar Steering.left = 'R' ∧
    steeringChar Steering.right = 'L' ∧
    steeringChar Steering.straight = 'S' :=
  ⟨rfl, rfl, rfl⟩

/-- Claim C6: a received line whose content is exactly `"1"` is classified
as the segment-completion signal and is never appended to the telemetry
log, in any log state and whatever lines follow it. -/
theorem C6_completion_signal :
    ∀ (log : List Sample) (rest : List Line),
      handleLine log ['1'] = (true, log) ∧
      awaitCompletion log (['1'] :: rest) = (true, log) := by
  intro log rest
  constructor
  · simp [handleLine]
  · simp [awaitCompletion, handleLine]

/-- The zero-distance clamp-and-filter of `create_path_dataframe` keeps
exactly the primitives with `|param| ≥ 1e-10`, unclamped and in order. -/
theorem clampFilter_eq (path : List PathElement) :
    (path.map clampRow).filter (fun r => decide (r.distance ≠ 0)) =
      (path.filter (fun p => !decide (|p.param| < zeroTol))).map clampRow := by
  induction path with
  | nil => rfl
  | cons p rest ih =>
      by_cases h : |p.param| < zeroTol
      · simp only [List.map_cons, List.filter_cons]
        rw [show clampRow p = { steering := p.steering, gear := p.gear, distance := 0 } by
          simp [clampRow, h]]
        simp [h]
        simpa using ih
      · have hne : p.param ≠ 0 := by
          intro h0
          apply h
          rw [h0]
          simp only [abs_zero, zeroTol]
          norm_num
        simp only [List.map_cons, List.filter_cons]
        rw [show clampRow p = { steering := p.steering, gear := p.gear, distance := p.param } by
          simp [clampRow, h]]
        simp [h, hne, clampRow]
        simpa using ih

/-- On the primitives kept by the filter, `clampRow` is the identity
embedding into `PrimRow`. -/
theorem kept_clampRow_eq (path : List PathElement) :
    (path.filter (fun p => !decide (|p.param| < zeroTol))).map clampRow =
      (path.filter (fun p => !decide (|p.param| < zeroTol))).map
        (fun p => PrimRow.mk p.steering p.gear p.param) := by
  apply List.map_congr_left
  intro p hp
  have h : ¬ |p.param| < zeroTol := by
    have := List.of_mem_filter hp
    simpa using this
  simp [clampRow, h]

/-- Claim C8: every primitive whose absolute distance is below the
zero-tolerance `1e-10` is dropped: the produced command list is exactly
the in-order image of the kept primitives, and whenever a dropped
primitive exists the command list is strictly shorter than the input. -/
theorem C8_zero_distance_dropped (path : List PathElement)
    (hex : ∃ p ∈ path, |p.param| < zeroTol) :
    commandsOf path =
      (path.filter (fun p => !decide (|p.param| < zeroTol))).map rowOf ∧
    (commandsOf path).length < path.length := by
  have hkey : commandsOf path =
      (path.filter (fun p => !decide (|p.param| < zeroTol))).map rowOf := by
    unfold commandsOf create_path_dataframe
    by_cases hempty : path.isEmpty
    · rcases hex with ⟨p, hp, -⟩
      rw [List.isEmpty_iff] at hempty
      subst hempty
      simp at hp
    · simp only [hempty, if_false]
      set kept := path.filter (fun p => !decide (|p.param| < zeroTol)) with hkept
      have hdf1 : (path.map clampRow).filter (fun r => decide (r.distance ≠ 0)) =
          kept.map (fun p => PrimRow.mk p.steering p.gear p.param) := by
        rw [clampFilter_eq, kept_clampRow_eq]
      by_cases h1 : ((path.map clampRow).filter (fun r => decide (r.distance ≠ 0))).isEmpty
      · simp only [h1, if_true, Option.getD_none]
        rw [List.isEmpty_iff] at h1
        rw [h1] at hdf1
        have : kept = [] := by
          cases hk : kept with
          | nil => rfl
          | cons a l => rw [hk] at hdf1; simp at hdf1
        rw [this]
        simp
      · simp only [h1, if_false, Option.getD_some]
        rw [hdf1, List.map_map]
        rfl
  refine ⟨hkey, ?_⟩
  rw [hkey, List.length_map]
  rcases hex with ⟨p, hp, hlt⟩
  apply List.length_filter_lt_length_iff_exists.mpr
  exact ⟨p, hp, by simpa using hlt⟩

/-- Claim C8, witness: a two-primitive plan containing one zero-distance
primitive; the command list is the image of the kept primitives and is
strictly shorter than the plan. -/
theorem C8_zero_distance_dropped_witness :
    commandsOf
        [{ steering := Steering.straight, gear := Gear.forward, param := 0 },
         { steering := Steering.left, gear := Gear.forward, param := 1/2 }] =
      ([{ steering := Steering.straight, gear := Gear.forward, param := 0 },
        { steering := Steering.left, gear := Gear.forward, param := 1/2 }].filter
          (fun p => !decide (|p.param| < zeroTol))).map rowOf ∧
    (commandsOf
        [{ steering := Steering.straight, gear := Gear.forward, param := 0 },
         { steering := Steering.left, gear := Gear.forward, param := 1/2 }]).length <
      ([{ steering := Steering.straight, gear := Gear.forward, param := 0 },
        { steering := Steering.left, gear := Gear.forward, param := 1/2 }] :
          List PathElement).length :=
  C8_zero_distance_dropped
    [{ steering := Steering.straight, gear := Gear.forward, param := 0 },
     { steering := Steering.left, gear := Gear.forward, param := 1/2 }]
    ⟨{ steering := Steering.straight, gear := Gear.forward, param := 0 },
     by simp, by norm_num [zeroTol]⟩

/-- Claim C2, counterexample: for the claimed example `distance = 0.1`,
`gear = Forward`, `steering = Left` (velocity `1.1`, turning radius
`0.6`), the dataframe carries `duration_ms = 600/11 ≈ 54.55` and the
transmitted integer duration is `int(600/11) = 54`, not the claimed
nearest-integer `round(600/11) = 55`: the code truncates. -/
theorem C2_counterexample :
    create_path_dataframe [{ steering := Steering.left, gear := Gear.forward, param := 1/10 }] =
      some [{ steering := Steering.left, gear := Gear.forward, distance := 1/10,
              velocity := 11/10, duration_ms := 600/11 }] ∧
    (rowCmd { steering := Steering.left, gear := Gear.forward, distance := 1/10,
              velocity := 11/10, duration_ms := 600/11 }).duration = 54 ∧
    roundNearest ((1/10 : ℚ) * TURNING_RADIUS / (11/10) * 1000) = 55 ∧
    (54 : ℤ) ≠ 55 := by
  have habs : |(1:ℚ)/10| = 1/10 := abs_of_pos (by norm_num)
  refine ⟨?_, ?_, ?_, by decide⟩
  · norm_num [create_path_dataframe, clampRow, addVelDur, get_velocity, habs, zeroTol,
      TURNING_RADIUS, FORWARD_LEFT_SHORT_VELOCITY]
  · have h54 : pyTrunc ((600:ℚ)/11) = 54 := by
      rw [pyTrunc, if_pos (by norm_num : (0:ℚ) ≤ 600/11), Int.floor_eq_iff]
      norm_num
    simpa [rowCmd] using h54
  · rw [roundNearest, Int.floor_eq_iff]
    norm_num [TURNING_RADIUS]

/-- Claim C2, amended: for every Command built by the Translator, the
transmitted `durationMs` is the TRUNCATION toward zero (Python `int()`)
of `distance * turningRadius / velocity * 1000` when the velocity is
nonzero, and `0` when the velocity is zero; in particular for
`d = 0.1`, `v = 1.1`, `r = 0.6` the transmitted duration is `54`. -/
theorem C2_duration_truncated (path : List PathElement) (rows : List Row) (r : Row)
    (hpath : create_path_dataframe path = some rows) (hr : r ∈ rows) :
    (rowCmd r).duration =
      if r.velocity = 0 then 0
      else pyTrunc (r.distance * TURNING_RADIUS / r.velocity * 1000) := by
  unfold create_path_dataframe at hpath
  by_cases h0 : path.isEmpty
  · rw [if_pos h0] at hpath
    exact absurd hpath (by simp)
  · rw [if_neg h0] at hpath
    by_cases h1 : ((path.map clampRow).filter (fun r => decide (r.distance ≠ 0))).isEmpty
    · rw [if_pos h1] at hpath
      exact absurd hpath (by simp)
    · rw [if_neg h1] at hpath
      have hrows := (Option.some.inj hpath).symm
      rw [hrows] at hr
      rcases List.mem_map.mp hr with ⟨pr, hpr, hpre⟩
      subst hpre
      by_cases hv : get_velocity pr.gear pr.steering pr.distance = 0
      · simp [rowCmd, addVelDur, hv, pyTrunc]
      · simp [rowCmd, addVelDur, hv]

/-- Claim C2, witness: the amended theorem evaluated on the
single-primitive plan of the claimed example; the transmitted duration is
the truncation `54`. -/
theorem C2_duration_truncated_witness :
    (rowCmd { steering := Steering.left, gear := Gear.forward, distance := 1/10,
              velocity := 11/10, duration_ms := 600/11 }).duration =
      if (11/10 : ℚ) = 0 then 0
      else pyTrunc ((1/10 : ℚ) * TURNING_RADIUS / (11/10) * 1000) :=
  C2_duration_truncated
    [{ steering := Steering.left, gear := Gear.forward, param := 1/10 }]
    [{ steering := Steering.left, gear := Gear.forward, distance := 1/10,
       velocity := 11/10, duration_ms := 600/11 }]
    { steering := Steering.left, gear := Gear.forward, distance := 1/10,
      velocity := 11/10, duration_ms := 600/11 }
    (by
      have habs : |(1:ℚ)/10| = 1/10 := abs_of_pos (by norm_num)
      norm_num [create_path_dataframe, clampRow, addVelDur, get_velocity, habs, zeroTol,
        TURNING_RADIUS, FORWARD_LEFT_SHORT_VELOCITY])
    (List.mem_singleton.mpr rfl)

/-- Claim C3, counterexample: a primitive with negative distance `-0.5`
is NOT rejected: `create_path_dataframe` raises no `InvalidPrimitive`
failure, the primitive reaches the velocity lookup (returning the
forward/straight short velocity `6`, since `-0.5 < 0.4`), and a Command
with negative duration `-50 ms` is produced for it. -/
theorem C3_counterexample :
    create_path_dataframe [{ steering := Steering.straight, gear := Gear.forward, param := -1/2 }] =
      some [{ steering := Steering.straight, gear := Gear.forward, distance := -1/2,
              velocity := 6, duration_ms := -50 }] := by
  have habs : |(1:ℚ)/2| = 1/2 := abs_of_pos (by norm_num)
  norm_num [create_path_dataframe, clampRow, addVelDur, get_velocity, habs, zeroTol,
    TURNING_RADIUS, FORWARD_STRAIGHT_SHORT_VELOCITY]

/-- Claim C3, amended: a primitive with negative distance `d ≤ -1e-10`
is not rejected and there is no `InvalidPrimitive` failure path: it
passes the zero-distance filter unchanged, reaches the VelocityPolicy
lookup — which classifies it as "short" because `d < 0.4` — and produces
a Command. -/
theorem C3_negative_distance_not_rejected (p : PathElement)
    (h : p.param ≤ -zeroTol) :
    create_path_dataframe [p] = some [rowOf p] ∧
    (rowOf p).velocity = shortVel p.gear p.steering := by
  have htol : (0 : ℚ) < zeroTol := by
    simp only [zeroTol]
    norm_num
  have hneg : p.param < 0 := lt_of_le_of_lt h (by linarith)
  have habs : ¬ |p.param| < zeroTol := by
    rw [abs_of_neg hneg]
    push_neg
    linarith
  have hne : p.param ≠ 0 := ne_of_lt hneg
  constructor
  · unfold create_path_dataframe
    simp [clampRow, habs, hne, rowOf]
  · have hshort : p.param < 4/10 := lt_of_lt_of_le hneg (by norm_num)
    show (addVelDur { steering := p.steering, gear := p.gear, distance := p.param }).velocity = _
    cases hg : p.gear <;> cases hs : p.steering <;>
      simp [addVelDur, get_velocity, shortVel, hshort]

/-- Claim C3, witness: the amended theorem evaluated at the concrete
primitive with distance `-0.5`. -/
theorem C3_negative_distance_not_rejected_witness :
    create_path_dataframe
        [{ steering := Steering.straight, gear := Gear.forward, param := -1/2 }] =
      some [rowOf { steering := Steering.straight, gear := Gear.forward, param := -1/2 }] ∧
    (rowOf { steering := Steering.straight, gear := Gear.forward, param := -1/2 }).velocity =
      shortVel Gear.forward Steering.straight :=
  C3_negative_distance_not_rejected
    { steering := Steering.straight, gear := Gear.forward, param := -1/2 }
    (by rw [zeroTol]; norm_num)

/-- A positional field-parse failure makes the whole six-field decode
fail. -/
theorem parseFields_eq_none (parts : List Line)
    (h : pyParseInt (parts.getD 0 []) = none ∨ pyParseFloat (parts.getD 1 []) = none ∨
         pyParseFloat (parts.getD 2 []) = none ∨ pyParseFloat (parts.getD 3 []) = none ∨
         pyParseFloat (parts.getD 4 []) = none ∨ pyParseFloat (parts.getD 5 []) = none) :
    parseFields parts = none := by
  cases hps : parseFields parts with
  | none => rfl
  | some s =>
      exfalso
      have hsome := hps
      simp only [parseFields, Option.pure_def, Option.bind_eq_bind, Option.bind_eq_some,
        Option.some.injEq] at hsome
      obtain ⟨t, ht, dv, hdv, av, hav, er, her, op, hop, gz, hgz, -⟩ := hsome
      rcases h with h | h | h | h | h | h <;> simp_all

/-- Claim C7: a received line that is not the completion signal and
either has fewer than 6 comma-separated fields or has one of its first 6
fields fail its numeric parse is discarded — the telemetry log is
unchanged, no segment completion is signalled, and decoding continues
with the next line (the model is a total function: no input line is
fatal). -/
theorem C7_malformed_discarded_decoding_continues
    (line : Line) (log : List Sample) (rest : List Line)
    (hne : line ≠ ['1'])
    (h : (splitOnComma line).length < 6 ∨
         pyParseInt ((splitOnComma line).getD 0 []) = none ∨
         pyParseFloat ((splitOnComma line).getD 1 []) = none ∨
         pyParseFloat ((splitOnComma line).getD 2 []) = none ∨
         pyParseFloat ((splitOnComma line).getD 3 []) = none ∨
         pyParseFloat ((splitOnComma line).getD 4 []) = none ∨
         pyParseFloat ((splitOnComma line).getD 5 []) = none) :
    handleLine log line = (false, log) ∧
    awaitCompletion log (line :: rest) = awaitCompletion log rest := by
  have hnone : parseSampleLine line = none := by
    unfold parseSampleLine
    by_cases hlen : 6 ≤ (splitOnComma line).length
    · rw [if_pos hlen]
      rcases h with h | h
      · omega
      · exact parseFields_eq_none _ h
    · rw [if_neg hlen]
  have hh : handleLine log line = (false, log) := by
    unfold handleLine
    rw [if_neg hne, hnone]
  exact ⟨hh, by simp [awaitCompletion, hh]⟩

/-- Claim C7, witness: the single-field line `"x"` (one field, no valid
number) is discarded with the log unchanged and the following line is
still processed. -/
theorem C7_malformed_witness :
    handleLine [] ['x'] = (false, []) ∧
    awaitCompletion [] (['x'] :: [['1']]) = awaitCompletion [] [['1']] :=
  C7_malformed_discarded_decoding_continues ['x'] [] [['1']]
    (by decide) (Or.inl (by decide))

/-- A command built from a dataframe row never coincides with the stop
command: its steering code is one of `'R'`, `'L'`, `'S'`, never `'N'`. -/
theorem rowCmd_ne_stopCmd (r : Row) : rowCmd r ≠ stopCmd := by
  rcases r with ⟨s, g, d, v, dm⟩
  intro h
  have hs : steeringChar s = 'N' := congrArg Cmd.steering h
  cases s <;> simp [steeringChar] at hs

/-- Writes of the segment loop when every dispatch write and the final
stop write succeed: whatever was already written, followed by some
row commands, followed by exactly one final stop command. -/
theorem runFrom_writes_shape (env : PlanEnv) (rows : List Row) :
    ∀ (n : ℕ) (writes : List Cmd) (log : List Sample),
      env.stopOk = true →
      (∀ i, i < rows.length → (env.segs.getD (n + i) defaultSegEnv).sendOk = true) →
      ∃ ws, (runFrom env rows n writes log).writes = writes ++ ws ++ [stopCmd] ∧
        stopCmd ∉ ws := by
  induction rows with
  | nil =>
      intro n writes log hstop _
      refine ⟨[], ?_, by simp⟩
      simp [runFrom, hstop]
  | cons r rest ih =>
      intro n writes log hstop hsend
      have h0 : (env.segs.getD n defaultSegEnv).sendOk = true := by
        have := hsend 0 (by simp)
        simpa using this
      have hrest : ∀ i, i < rest.length →
          (env.segs.getD (n + 1 + i) defaultSegEnv).sendOk = true := by
        intro i hi
        have := hsend (i + 1) (by simpa using Nat.succ_lt_succ hi)
        have heq : n + (i + 1) = n + 1 + i := by omega
        rwa [heq] at this
      rw [runFrom]
      simp only [h0, if_true]
      by_cases hp : (awaitCompletion log (env.segs.getD n defaultSegEnv).lines).1 = true
      · simp only [hp, if_true]
        obtain ⟨ws, hws, hni⟩ := ih (n + 1)
          (writes ++ [rowCmd r])
          (awaitCompletion log (env.segs.getD n defaultSegEnv).lines).2 hstop hrest
        refine ⟨rowCmd r :: ws, ?_, ?_⟩
        · rw [hws]
          simp
        · intro hmem
          rcases List.mem_cons.mp hmem with hx | hx
          · exact rowCmd_ne_stopCmd r hx.symm
          · exact hni hx
      · simp only [Bool.not_eq_true] at hp
        simp only [hp, Bool.false_eq_true, if_false, hstop, if_true]
        refine ⟨[rowCmd r], by simp, ?_⟩
        intro hmem
        rcases List.mem_singleton.mp hmem with hx
        exact rowCmd_ne_stopCmd r hx.symm

/-- Claim C1, counterexample: a one-segment plan whose dispatch write
fails (the `send_command` call raises and the `except` handler of
line 283 swallows the exception): the run aborts with NO command ever
written — the stop command is issued zero times, not exactly once. -/
theorem C1_counterexample :
    (communicate_with_robot
        [{ steering := Steering.straight, gear := Gear.forward, distance := 1/2,
           velocity := 4/5, duration_ms := 375 }]
        { segs := [{ sendOk := false, lines := [] }], stopOk := true }).writes.count stopCmd
      = 0 ∧
    (communicate_with_robot
        [{ steering := Steering.straight, gear := Gear.forward, distance := 1/2,
           velocity := 4/5, duration_ms := 375 }]
        { segs := [{ sendOk := false, lines := [] }], stopOk := true }).status
      = RunStatus.raised := by
  constructor
  · simp [communicate_with_robot, runFrom, defaultSegEnv]
  · simp [communicate_with_robot, runFrom, defaultSegEnv]

/-- Claim C1, amended: for every NONEMPTY plan execution in which the
dispatch writes and the stop write succeed — so the plan finishes
normally or times out — the explicit stop command is issued exactly once
and is the last command written; but when a mid-plan dispatch write
raises, the exception handler returns without issuing the stop command
(see the counterexample). -/
theorem C1_stop_exactly_once_and_last (rows : List Row) (env : PlanEnv)
    (hne : rows ≠ [])
    (hstop : env.stopOk = true)
    (hsend : ∀ i, i < rows.length → (env.segs.getD i defaultSegEnv).sendOk = true) :
    (communicate_with_robot rows env).writes.count stopCmd = 1 ∧
    (communicate_with_robot rows env).writes.getLast? = some stopCmd := by
  have hnotempty : rows.isEmpty = false := by
    cases rows with
    | nil => exact absurd rfl hne
    | cons a l => rfl
  unfold communicate_with_robot
  rw [hnotempty]
  simp only [Bool.false_eq_true, if_false]
  obtain ⟨ws, hws, hni⟩ := runFrom_writes_shape env rows 0 [] []
    hstop (by simpa using hsend)
  rw [hws]
  constructor
  · simp [List.count_append, List.count_eq_zero.mpr hni]
  · simp

/-- Claim C1, witness: a one-segment plan that times out (no completion
signal arrives): the stop command is written exactly once, as the last
write. -/
theorem C1_stop_exactly_once_and_last_witness :
    (communicate_with_robot
        [{ steering := Steering.straight, gear := Gear.forward, distance := 1/2,
           velocity := 4/5, duration_ms := 375 }]
        { segs := [{ sendOk := true, lines := [] }], stopOk := true }).writes.count stopCmd
      = 1 ∧
    (communicate_with_robot
        [{ steering := Steering.straight, gear := Gear.forward, distance := 1/2,
           velocity := 4/5, duration_ms := 375 }]
        { segs := [{ sendOk := true, lines := [] }], stopOk := true }).writes.getLast?
      = some stopCmd :=
  C1_stop_exactly_once_and_last
    [{ steering := Steering.straight, gear := Gear.forward, distance := 1/2,
       velocity := 4/5, duration_ms := 375 }]
    { segs := [{ sendOk := true, lines := [] }], stopOk := true }
    (by simp) rfl
    (by
      intro i hi
      have hi0 : i = 0 := by simpa using hi
      subst hi0
      rfl)

/-- The Python float-mod normalization always lands in `[-pi, pi)`. -/
theorem wrapTheta_mem (t : ℝ) :
    -Real.pi ≤ wrapTheta t ∧ wrapTheta t < Real.pi := by
  have h2pi : (0:ℝ) < 2 * Real.pi := by positivity
  unfold wrapTheta pyMod
  have hfr : (t + Real.pi) - 2 * Real.pi * ⌊(t + Real.pi) / (2 * Real.pi)⌋ =
      2 * Real.pi * Int.fract ((t + Real.pi) / (2 * Real.pi)) := by
    rw [Int.fract, mul_sub, mul_comm (2 * Real.pi) ((t + Real.pi) / (2 * Real.pi)),
      div_mul_cancel₀ _ (ne_of_gt h2pi)]
  rw [hfr]
  have hnn := Int.fract_nonneg ((t + Real.pi) / (2 * Real.pi))
  have hlt := Int.fract_lt_one ((t + Real.pi) / (2 * Real.pi))
  constructor
  · nlinarith
  · nlinarith

/-- The normalization is the identity on `[-pi, pi)`. -/
theorem wrapTheta_eq_self (t : ℝ) (h1 : -Real.pi ≤ t) (h2 : t < Real.pi) :
    wrapTheta t = t := by
  have h2pi : (0:ℝ) < 2 * Real.pi := by positivity
  unfold wrapTheta pyMod
  have hfl : ⌊(t + Real.pi) / (2 * Real.pi)⌋ = 0 := by
    rw [Int.floor_eq_zero_iff, Set.mem_Ico]
    constructor
    · apply div_nonneg _ (le_of_lt h2pi)
      linarith
    · rw [div_lt_one h2pi]
      linarith
  rw [hfl]
  push_cast
  ring

/-- A zero heading is left unchanged by normalization. -/
theorem wrapTheta_zero : wrapTheta 0 = 0 :=
  wrapTheta_eq_self 0 (by linarith [Real.pi_pos]) Real.pi_pos

/-- A heading of exactly `pi` is normalized to `-pi`: the boundary value
`pi` itself is NOT in the image of the normalization. -/
theorem wrapTheta_pi : wrapTheta Real.pi = -Real.pi := by
  have h2pi : (0:ℝ) < 2 * Real.pi := by positivity
  unfold wrapTheta pyMod
  have hfl : ⌊(Real.pi + Real.pi) / (2 * Real.pi)⌋ = 1 := by
    rw [show Real.pi + Real.pi = 2 * Real.pi by ring, div_self (ne_of_gt h2pi)]
    exact Int.floor_one
  rw [hfl]
  push_cast
  ring

/-- The source loop body agrees with the spec's step. -/
theorem odomStep_eq_spec (st : OdoState) (s : Sample) :
    odomStep st s = odomSpecStep st s := rfl

/-- The source loop agrees with the spec recursion on the SAME sample
sequence. -/
theorem integrate_eq_specRun (st : OdoState) (log : List Sample) :
    integrate st log = odomSpecRun st log := by
  induction log generalizing st with
  | nil => rfl
  | cons s rest ih => simp only [integrate, odomSpecRun, odomStep_eq_spec, ih]

/-- One pose per processed sample. -/
theorem integrate_length (st : OdoState) (log : List Sample) :
    (integrate st log).length = log.length := by
  induction log generalizing st with
  | nil => rfl
  | cons s rest ih => simp [integrate, ih]

/-- Insertion grows the list by one. -/
theorem insertByTs_length (s : Sample) (l : List Sample) :
    (insertByTs s l).length = l.length + 1 := by
  induction l with
  | nil => rfl
  | cons t rest ih =>
      by_cases h : s.timestamp_ms ≤ t.timestamp_ms <;> simp [insertByTs, h, ih]

/-- Sorting preserves the number of samples. -/
theorem sortByTs_length (log : List Sample) :
    (sortByTs log).length = log.length := by
  induction log with
  | nil => rfl
  | cons s rest ih => simp [sortByTs, insertByTs_length, ih]

/-- A log whose timestamps are already non-decreasing is left unchanged
by the sort. -/
theorem sortByTs_eq_self (log : List Sample)
    (h : log.Chain' (fun a b => a.timestamp_ms ≤ b.timestamp_ms)) :
    sortByTs log = log := by
  induction log with
  | nil => rfl
  | cons s rest ih =>
      cases rest with
      | nil => rfl
      | cons t rest2 =>
          rw [List.chain'_cons] at h
          have ih2 := ih h.2
          simp only [sortByTs] at ih2 ⊢
          rw [ih2]
          simp [insertByTs, h.1]

/-- Every pose the integrator emits has its heading in `[-pi, pi)`. -/
theorem integrate_theta_mem (st : OdoState) (log : List Sample) :
    ∀ p ∈ integrate st log, -Real.pi ≤ p.theta ∧ p.theta < Real.pi := by
  induction log generalizing st with
  | nil => intro p hp; simp [integrate] at hp
  | cons s rest ih =>
      intro p hp
      simp only [integrate, List.mem_cons] at hp
      rcases hp with hp | hp
      · subst hp
        exact wrapTheta_mem _
      · exact ih (odomStep st s) p hp

/-- Claim C4, counterexample: on the out-of-order log
`[{ts:200, v:1, gyro:0}, {ts:100, v:1, gyro:0}]` the Odometry Integrator
does NOT fail — it produces a pose for both samples — and the poses are
those of the timestamp-SORTED log (`x = 0.1` then `0.2`), not of the
arrival order, so the samples ARE resequenced and no
`NonMonotonicTelemetry` failure exists. -/
theorem C4_counterexample :
    calculate_x_y_coords (0, 0, 0)
        [{ timestamp_ms := 200, desired_velocity := 0, actual_velocity := 1,
           error := 0, output := 0, gyro_z := 0 },
         { timestamp_ms := 100, desired_velocity := 0, actual_velocity := 1,
           error := 0, output := 0, gyro_z := 0 }] =
      [{ x := 1/10, y := 0, theta := 0 }, { x := 1/5, y := 0, theta := 0 }] ∧
    calculate_x_y_coords (0, 0, 0)
        [{ timestamp_ms := 200, desired_velocity := 0, actual_velocity := 1,
           error := 0, output := 0, gyro_z := 0 },
         { timestamp_ms := 100, desired_velocity := 0, actual_velocity := 1,
           error := 0, output := 0, gyro_z := 0 }] ≠
      odomSpec (0, 0, 0)
        [{ timestamp_ms := 200, desired_velocity := 0, actual_velocity := 1,
           error := 0, output := 0, gyro_z := 0 },
         { timestamp_ms := 100, desired_velocity := 0, actual_velocity := 1,
           error := 0, output := 0, gyro_z := 0 }] := by
  have hs1 : odomStep { x := 0, y := 0, theta := 0, lastTs := 0 }
      { timestamp_ms := 100, desired_velocity := 0, actual_velocity := 1,
        error := 0, output := 0, gyro_z := 0 } =
      { x := 1/10, y := 0, theta := 0, lastTs := 100 } := by
    simp only [odomStep, OdoState.mk.injEq]
    refine ⟨by norm_num [Real.cos_zero], by norm_num [Real.sin_zero], ?_, trivial⟩
    convert wrapTheta_zero using 2
    rw [radians]
    push_cast
    ring
  have hs2 : odomStep { x := 1/10, y := 0, theta := 0, lastTs := 100 }
      { timestamp_ms := 200, desired_velocity := 0, actual_velocity := 1,
        error := 0, output := 0, gyro_z := 0 } =
      { x := 1/5, y := 0, theta := 0, lastTs := 200 } := by
    simp only [odomStep, OdoState.mk.injEq]
    refine ⟨by norm_num [Real.cos_zero], by norm_num [Real.sin_zero], ?_, trivial⟩
    convert wrapTheta_zero using 2
    rw [radians]
    push_cast
    ring
  have hs1u : odomStep { x := 0, y := 0, theta := 0, lastTs := 0 }
      { timestamp_ms := 200, desired_velocity := 0, actual_velocity := 1,
        error := 0, output := 0, gyro_z := 0 } =
      { x := 1/5, y := 0, theta := 0, lastTs := 200 } := by
    simp only [odomStep, OdoState.mk.injEq]
    refine ⟨by norm_num [Real.cos_zero], by norm_num [Real.sin_zero], ?_, trivial⟩
    convert wrapTheta_zero using 2
    rw [radians]
    push_cast
    ring
  have hs2u : odomStep { x := 1/5, y := 0, theta := 0, lastTs := 200 }
      { timestamp_ms := 100, desired_velocity := 0, actual_velocity := 1,
        error := 0, output := 0, gyro_z := 0 } =
      { x := 1/10, y := 0, theta := 0, lastTs := 100 } := by
    simp only [odomStep, OdoState.mk.injEq]
    refine ⟨by norm_num [Real.cos_zero], by norm_num [Real.sin_zero], ?_, trivial⟩
    convert wrapTheta_zero using 2
    rw [radians]
    push_cast
    ring
  have hsort : sortByTs
      [{ timestamp_ms := 200, desired_velocity := 0, actual_velocity := 1,
         error := 0, output := 0, gyro_z := 0 },
       { timestamp_ms := 100, desired_velocity := 0, actual_velocity := 1,
         error := 0, output := 0, gyro_z := 0 }] =
      [{ timestamp_ms := 100, desired_velocity := 0, actual_velocity := 1,
         error := 0, output := 0, gyro_z := 0 },
       { timestamp_ms := 200, desired_velocity := 0, actual_velocity := 1,
         error := 0, output := 0, gyro_z := 0 }] := by
    norm_num [sortByTs, insertByTs]
  have hcalc : calculate_x_y_coords (0, 0, 0)
      [{ timestamp_ms := 200, desired_velocity := 0, actual_velocity := 1,
         error := 0, output := 0, gyro_z := 0 },
       { timestamp_ms := 100, desired_velocity := 0, actual_velocity := 1,
         error := 0, output := 0, gyro_z := 0 }] =
      [{ x := 1/10, y := 0, theta := 0 }, { x := 1/5, y := 0, theta := 0 }] := by
    unfold calculate_x_y_coords
    rw [hsort]
    norm_num [radians]
    simp only [integrate, hs1, hs2]
  have hspec : odomSpec (0, 0, 0)
      [{ timestamp_ms := 200, desired_velocity := 0, actual_velocity := 1,
         error := 0, output := 0, gyro_z := 0 },
       { timestamp_ms := 100, desired_velocity := 0, actual_velocity := 1,
         error := 0, output := 0, gyro_z := 0 }] =
      [{ x := 1/5, y := 0, theta := 0 }, { x := 1/10, y := 0, theta := 0 }] := by
    unfold odomSpec
    rw [← integrate_eq_specRun]
    norm_num [radians]
    simp only [integrate, hs1u, hs2u]
  refine ⟨hcalc, ?_⟩
  rw [hcalc, hspec]
  intro hcontra
  have hx := congrArg Pose.x (List.head_eq_of_cons_eq hcontra)
  norm_num at hx

/-- Claim C4, amended: the Odometry Integrator never fails on
out-of-order timestamps; instead it SORTS the log by `timestamp_ms`
(resequencing the samples) and then integrates exactly the spec's Euler
recursion on the sorted log, emitting one pose per sample. -/
theorem C4_integrator_resequences :
    ∀ (start : ℝ × ℝ × ℝ) (log : List Sample),
      calculate_x_y_coords start log = odomSpec start (sortByTs log) ∧
      (calculate_x_y_coords start log).length = log.length := by
  intro start log
  constructor
  · unfold calculate_x_y_coords odomSpec
    exact integrate_eq_specRun _ _
  · unfold calculate_x_y_coords
    rw [integrate_length, sortByTs_length]

/-- Claim C5, counterexample: from seed heading `0`, the single sample
`{ts:1000, v:0, gyro:180}` (so `dt = 1`, heading increment `pi`) yields
an emitted heading of exactly `-pi`, which is NOT in the claimed interval
`(-pi, pi]`: the normalization maps into `[-pi, pi)`. -/
theorem C5_counterexample :
    ((calculate_x_y_coords (0, 0, 0)
        [{ timestamp_ms := 1000, desired_velocity := 0, actual_velocity := 0,
           error := 0, output := 0, gyro_z := 180 }]).getD 0
        { x := 0, y := 0, theta := 0 }).theta = -Real.pi ∧
    ¬ (-Real.pi <
        ((calculate_x_y_coords (0, 0, 0)
            [{ timestamp_ms := 1000, desired_velocity := 0, actual_velocity := 0,
               error := 0, output := 0, gyro_z := 180 }]).getD 0
            { x := 0, y := 0, theta := 0 }).theta) := by
  have hstep : odomStep { x := 0, y := 0, theta := 0, lastTs := 0 }
      { timestamp_ms := 1000, desired_velocity := 0, actual_velocity := 0,
        error := 0, output := 0, gyro_z := 180 } =
      { x := 0, y := 0, theta := -Real.pi, lastTs := 1000 } := by
    simp only [odomStep, OdoState.mk.injEq]
    refine ⟨by norm_num, by norm_num, ?_, trivial⟩
    convert wrapTheta_pi using 2
    rw [radians]
    push_cast
    ring
  have hcalc : calculate_x_y_coords (0, 0, 0)
      [{ timestamp_ms := 1000, desired_velocity := 0, actual_velocity := 0,
         error := 0, output := 0, gyro_z := 180 }] =
      [{ x := 0, y := 0, theta := -Real.pi }] := by
    unfold calculate_x_y_coords
    rw [show sortByTs
        [{ timestamp_ms := 1000, desired_velocity := 0, actual_velocity := 0,
           error := 0, output := 0, gyro_z := 180 }] =
        [{ timestamp_ms := 1000, desired_velocity := 0, actual_velocity := 0,
           error := 0, output := 0, gyro_z := 180 }] from rfl]
    norm_num [radians]
    simp only [integrate, hstep]
  rw [hcalc]
  exact ⟨rfl, by simp⟩

/-- Claim C5, amended: for every start pose and every telemetry log with
non-decreasing timestamps, the Odometry Integrator emits one pose per
sample in order, computed exactly by the spec's Euler step (position
updated with the previous heading, then the heading updated and
normalized), and every emitted heading lies in `[-pi, pi)` — the
half-open interval on the other side of the claimed `(-pi, pi]`. -/
theorem C5_odometry_euler (start : ℝ × ℝ × ℝ) (log : List Sample)
    (hmono : log.Chain' (fun a b => a.timestamp_ms ≤ b.timestamp_ms)) :
    calculate_x_y_coords start log = odomSpec start log ∧
    (calculate_x_y_coords start log).length = log.length ∧
    ∀ p ∈ calculate_x_y_coords start log,
      -Real.pi ≤ p.theta ∧ p.theta < Real.pi := by
  have hsort := sortByTs_eq_self log hmono
  refine ⟨?_, ?_, ?_⟩
  · unfold calculate_x_y_coords odomSpec
    rw [hsort]
    exact integrate_eq_specRun _ _
  · unfold calculate_x_y_coords
    rw [integrate_length, sortByTs_length]
  · intro p hp
    unfold calculate_x_y_coords at hp
    exact integrate_theta_mem _ _ p hp

/-- Claim C5, witness: the amended theorem evaluated on the spec's own
example log (one sample, `ts = 100`, `v = 0.5`, `gyro = 90`), whose
timestamps are trivially non-decreasing. -/
theorem C5_odometry_euler_witness :
    calculate_x_y_coords (0, 0, 0)
        [{ timestamp_ms := 100, desired_velocity := 0, actual_velocity := 1/2,
           error := 0, output := 0, gyro_z := 90 }] =
      odomSpec (0, 0, 0)
        [{ timestamp_ms := 100, desired_velocity := 0, actual_velocity := 1/2,
           error := 0, output := 0, gyro_z := 90 }] ∧
    (calculate_x_y_coords (0, 0, 0)
        [{ timestamp_ms := 100, desired_velocity := 0, actual_velocity := 1/2,
           error := 0, output := 0, gyro_z := 90 }]).length = 1 ∧
    ∀ p ∈ calculate_x_y_coords (0, 0, 0)
        [{ timestamp_ms := 100, desired_velocity := 0, actual_velocity := 1/2,
           error := 0, output := 0, gyro_z := 90 }],
      -Real.pi ≤ p.theta ∧ p.theta < Real.pi :=
  C5_odometry_euler (0, 0, 0)
    [{ timestamp_ms := 100, desired_velocity := 0, actual_velocity := 1/2,
       error := 0, output := 0, gyro_z := 90 }]
    (List.chain'_singleton _)

end MainController
